import Mathlib

/-!
Verification of the btcmdata Redis data-access layer (src/redis/{mod,users,groups,device}.rs).

The code under scrutiny is a thin CRUD layer over a remote Redis store.  We shallowly
embed it as pure Lean functions:

* the external Redis store (spec section 6: SADD, SREM, SMEMBERS, HSET, HGETALL,
  EXISTS, DEL, RENAME on string keys holding set or hash values) becomes an
  association list from key strings to values, with each command a pure function
  returning `Except` (a WRONGTYPE or missing-rename-source failure is an `error`);
* each Rust accessor becomes a function from a connection handle and a store to a
  `CallResult`, recording the value returned to the caller (`Option` models the
  `unwrap` panics: `none` is an abort), the resulting store, the caller's connection
  handle after the call, and the commands the call issued through its cloned handle;
* Rust's `format!("{}", n)` on an unsigned integer is modelled by `natDecimal`,
  a most-significant-digit-first base-10 rendering defined below, and `ClientID`
  (a `u64` wrapper with `Into<u64>`) and the `u32` device ids are modelled as `Nat`.
-/

namespace Btcmdata

/-- Character for a single decimal digit `d < 10` (codepoint 48 + d). -/
def digitChar (d : Nat) : Char := Char.ofNat (48 + d)

/-- Recognizer for decimal digit characters ('0' through '9'). -/
def isDigitChar (c : Char) : Bool := 48 ≤ c.toNat && c.toNat ≤ 57

/-- Fuelled most-significant-first decimal digit list of `n`; returns `[]` when the
fuel runs out (never happens for fuel larger than the digit count). -/
def natDigitsAux : Nat → Nat → List Char
  | 0, _ => []
  | fuel + 1, n =>
    if n < 10 then [digitChar n]
    else natDigitsAux fuel (n / 10) ++ [digitChar (n % 10)]

/-- Model of Rust `format!("{}", n)` for an unsigned integer: decimal rendering. -/
def natDecimal (n : Nat) : String := ⟨natDigitsAux (n + 1) n⟩

/-- Value of a most-significant-first decimal digit list. -/
def decimalVal (l : List Char) : Nat :=
  l.foldl (fun acc c => 10 * acc + (c.toNat - 48)) 0

theorem digitChar_toNat : ∀ d, d < 10 → (digitChar d).toNat = 48 + d := by decide

theorem isDigitChar_digitChar : ∀ d, d < 10 → isDigitChar (digitChar d) = true := by decide

theorem decimalVal_append_digit (l : List Char) (c : Char) :
    decimalVal (l ++ [c]) = 10 * decimalVal l + (c.toNat - 48) := by
  simp [decimalVal, List.foldl_append]

theorem decimalVal_natDigitsAux :
    ∀ fuel n, n < 10 ^ fuel → decimalVal (natDigitsAux fuel n) = n := by
  intro fuel
  induction fuel with
  | zero =>
    intro n h
    interval_cases n
    rfl
  | succ f ih =>
    intro n h
    by_cases hn : n < 10
    · simp [natDigitsAux, hn, decimalVal, digitChar_toNat n hn]
    · have hdiv : n / 10 < 10 ^ f := by
        rw [Nat.div_lt_iff_lt_mul (by norm_num)]
        calc n < 10 ^ (f + 1) := h
          _ = 10 ^ f * 10 := by ring
      rw [natDigitsAux, if_neg hn, decimalVal_append_digit, ih _ hdiv,
        digitChar_toNat _ (Nat.mod_lt _ (by norm_num))]
      omega

theorem natDigitsAux_all_digits :
    ∀ fuel n, (natDigitsAux fuel n).all isDigitChar = true := by
  intro fuel
  induction fuel with
  | zero => intro n; rfl
  | succ f ih =>
    intro n
    by_cases hn : n < 10
    · simp [natDigitsAux, hn, isDigitChar_digitChar n hn]
    · simp only [natDigitsAux, if_neg hn, List.all_append]
      simp [ih, isDigitChar_digitChar (n % 10) (Nat.mod_lt _ (by norm_num))]

theorem nat_lt_ten_pow (n : Nat) : n < 10 ^ (n + 1) := by
  calc n < 10 ^ n := Nat.lt_pow_self (by norm_num) n
    _ ≤ 10 ^ (n + 1) := Nat.pow_le_pow_right (by norm_num) (Nat.le_succ n)

theorem decimalVal_natDecimal (n : Nat) : decimalVal (natDecimal n).data = n :=
  decimalVal_natDigitsAux (n + 1) n (nat_lt_ten_pow n)

theorem natDecimal_all_digits (n : Nat) : (natDecimal n).data.all isDigitChar = true :=
  natDigitsAux_all_digits (n + 1) n

theorem natDecimal_inj {a b : Nat} (h : natDecimal a = natDecimal b) : a = b := by
  have hd : (natDecimal a).data = (natDecimal b).data := by rw [h]
  rw [← decimalVal_natDecimal a, ← decimalVal_natDecimal b, hd]

theorem not_colon_mem_of_all_digits {l : List Char} (h : l.all isDigitChar = true) :
    ':' ∉ l := by
  intro hmem
  have h2 := List.all_eq_true.mp h ':' hmem
  simp [isDigitChar] at h2

theorem natDecimal_no_colon (n : Nat) : ':' ∉ (natDecimal n).data :=
  not_colon_mem_of_all_digits (natDecimal_all_digits n)

/-- Splitting on a separator absent from both left parts is unique. -/
theorem colon_split :
    ∀ (a c b d : List Char), ':' ∉ a → ':' ∉ c →
      a ++ ':' :: b = c ++ ':' :: d → a = c ∧ b = d := by
  intro a
  induction a with
  | nil =>
    intro c b d _ hc he
    cases c with
    | nil => exact ⟨rfl, by simpa using he⟩
    | cons y cs =>
      exfalso
      have he' : ':' :: b = y :: (cs ++ ':' :: d) := by simpa using he
      have h1 : ':' = y := (List.cons.inj he').1
      exact hc (h1 ▸ List.mem_cons_self y cs)
  | cons x xs ih =>
    intro c b d ha hc he
    cases c with
    | nil =>
      exfalso
      have he' : x :: (xs ++ ':' :: b) = ':' :: d := by simpa using he
      have h1 : x = ':' := (List.cons.inj he').1
      exact ha (h1 ▸ List.mem_cons_self x xs)
    | cons y cs =>
      have he' : x :: (xs ++ ':' :: b) = y :: (cs ++ ':' :: d) := by simpa using he
      have h1 := (List.cons.inj he').1
      have h2 := (List.cons.inj he').2
      obtain ⟨h3, h4⟩ := ih cs b d (fun hm => ha (List.mem_cons_of_mem x hm))
        (fun hm => hc (List.mem_cons_of_mem y hm)) h2
      exact ⟨by rw [h1, h3], h4⟩

/-! String helpers: the source builds keys with `format!`, i.e. string concatenation;
we reason about the underlying character lists. -/

theorem str_data_append (s t : String) : (s ++ t).data = s.data ++ t.data := rfl

theorem str_ext {s t : String} (h : s.data = t.data) : s = t := by
  cases s; cases t; exact congrArg String.mk h

/-- Test whether the first list is an initial segment of the second. -/
def listStarts : List Char → List Char → Bool
  | [], _ => true
  | _ :: _, [] => false
  | p :: ps, c :: cs => p == c && listStarts ps cs

theorem listStarts_append : ∀ (p s : List Char), listStarts p (p ++ s) = true := by
  intro p
  induction p with
  | nil => intro s; rfl
  | cons x xs ih => intro s; simp [listStarts, ih]

theorem listStarts_get :
    ∀ (p l : List Char), listStarts p l = true → ∀ i, i < p.length → p[i]? = l[i]? := by
  intro p
  induction p with
  | nil => intro l _ i hi; simp at hi
  | cons x xs ih =>
    intro l hs i hi
    cases l with
    | nil => simp [listStarts] at hs
    | cons y ys =>
      simp only [listStarts, Bool.and_eq_true, beq_iff_eq] at hs
      cases i with
      | zero => simp [hs.1]
      | succ j =>
        simp only [List.getElem?_cons_succ]
        exact ih ys hs.2 j (Nat.lt_of_succ_lt_succ hi)

theorem listStarts_app_false {p q : List Char} (i : Nat) (hip : i < p.length)
    (hiq : i < q.length) (hne : p[i]? ≠ q[i]?) (s : List Char) :
    listStarts p (q ++ s) = false := by
  cases hls : listStarts p (q ++ s) with
  | false => rfl
  | true =>
    exfalso
    have h1 := listStarts_get p (q ++ s) hls i hip
    rw [List.getElem?_append_left hiq] at h1
    exact hne h1

theorem append_data_ne {p q s t : List Char} (i : Nat) (hip : i < p.length)
    (hiq : i < q.length) (hne : p[i]? ≠ q[i]?) : p ++ s ≠ q ++ t := by
  intro he
  apply hne
  rw [← @List.getElem?_append_left _ p s i hip, he, List.getElem?_append_left hiq]

theorem contains_colon_append (l r : List Char) :
    (l ++ ':' :: r).contains ':' = true := by
  simp

theorem not_contains_colon {l : List Char} (h : ':' ∉ l) : l.contains ':' = false := by
  simpa using h

/-! ## The external Redis store (spec section 6)

A store maps string keys to values that are either a field-to-value hash or a set of
u64 members.  Each Redis command is a pure function; WRONGTYPE and missing-rename-source
failures are `Except.error`. -/

/-- Error type for store command failures (the message text). -/
abbrev RedisErr := String

/-- A Redis value: a hash (field-to-value map) or a set of u64 members. -/
inductive RVal where
  | hash : List (String × String) → RVal
  | set : List Nat → RVal
deriving DecidableEq, Repr

/-- The remote store: an association list from keys to values. -/
abbrev Store := List (String × RVal)

namespace Store

/-- First binding of a key, if any. -/
def lookup : Store → String → Option RVal
  | [], _ => none
  | (k, v) :: rest, key => if k = key then some v else lookup rest key

/-- Replace the first binding of a key, or append a new binding. -/
def insert : Store → String → RVal → Store
  | [], key, v => [(key, v)]
  | (k, w) :: rest, key, v =>
    if k = key then (key, v) :: rest else (k, w) :: insert rest key v

/-- Remove every binding of a key. -/
def erase : Store → String → Store
  | [], _ => []
  | (k, w) :: rest, key => if k = key then erase rest key else (k, w) :: erase rest key

theorem lookup_insert (st : Store) (key : String) (v : RVal) :
    (st.insert key v).lookup key = some v := by
  induction st with
  | nil => simp [insert, lookup]
  | cons p rest ih =>
    obtain ⟨k, w⟩ := p
    by_cases h : k = key
    · simp [insert, h, lookup]
    · simp [insert, h, lookup, ih]

theorem lookup_insert_ne (st : Store) {key key' : String} (v : RVal) (h : key' ≠ key) :
    (st.insert key v).lookup key' = st.lookup key' := by
  induction st with
  | nil => simp [insert, lookup, Ne.symm h]
  | cons p rest ih =>
    obtain ⟨k, w⟩ := p
    by_cases hk : k = key
    · have hp : ¬ k = key' := by rw [hk]; exact Ne.symm h
      simp [insert, hk, lookup, Ne.symm h, hp]
    · by_cases hk' : k = key'
      · simp [insert, hk, lookup, hk', h]
      · simp [insert, hk, lookup, hk', ih]

theorem lookup_erase (st : Store) (key : String) : (st.erase key).lookup key = none := by
  induction st with
  | nil => rfl
  | cons p rest ih =>
    obtain ⟨k, w⟩ := p
    by_cases h : k = key
    · simpa [erase, h] using ih
    · simpa [erase, lookup, h] using ih

theorem lookup_erase_ne (st : Store) {key key' : String} (h : key' ≠ key) :
    (st.erase key).lookup key' = st.lookup key' := by
  induction st with
  | nil => rfl
  | cons p rest ih =>
    obtain ⟨k, w⟩ := p
    by_cases hk : k = key
    · simpa [erase, lookup, hk, Ne.symm h] using ih
    · by_cases hk' : k = key'
      · simp [erase, lookup, hk, hk', h]
      · simpa [erase, lookup, hk, hk'] using ih

end Store

/-! Hash and set field-level semantics of the store commands. -/

/-- HSET of a single field: overwrite in place, or append a fresh field. -/
def hsetField : List (String × String) → String → String → List (String × String)
  | [], f, v => [(f, v)]
  | (g, w) :: rest, f, v =>
    if g = f then (f, v) :: rest else (g, w) :: hsetField rest f v

/-- HSET of a list of field-value pairs, applied left to right. -/
def hsetFields (h : List (String × String)) (pairs : List (String × String)) :
    List (String × String) :=
  pairs.foldl (fun acc p => hsetField acc p.1 p.2) h

/-- SADD of a list of members: append each member not already present. -/
def saddMems (s : List Nat) (mems : List Nat) : List Nat :=
  mems.foldl (fun acc m => if acc.contains m then acc else acc ++ [m]) s

/-- SREM of a list of members: drop every listed member. -/
def sremMems (s : List Nat) (mems : List Nat) : List Nat :=
  s.filter (fun m => !(mems.contains m))

/-- HSET command: writes the fields; WRONGTYPE on a set-typed key. -/
def redisHSET (st : Store) (key : String) (pairs : List (String × String)) :
    Except RedisErr Store :=
  match st.lookup key with
  | none => .ok (st.insert key (.hash (hsetFields [] pairs)))
  | some (.hash h) => .ok (st.insert key (.hash (hsetFields h pairs)))
  | some (.set _) => .error "WRONGTYPE"

/-- HGETALL command: the whole hash, `[]` on a missing key; WRONGTYPE on a set. -/
def redisHGETALL (st : Store) (key : String) :
    Except RedisErr (List (String × String)) :=
  match st.lookup key with
  | none => .ok []
  | some (.hash h) => .ok h
  | some (.set _) => .error "WRONGTYPE"

/-- SADD command: set union; WRONGTYPE on a hash-typed key. -/
def redisSADD (st : Store) (key : String) (mems : List Nat) : Except RedisErr Store :=
  match st.lookup key with
  | none => .ok (st.insert key (.set (saddMems [] mems)))
  | some (.set s) => .ok (st.insert key (.set (saddMems s mems)))
  | some (.hash _) => .error "WRONGTYPE"

/-- SREM command: removes members (deleting the key if the set empties);
no-op on a missing key; WRONGTYPE on a hash-typed key. -/
def redisSREM (st : Store) (key : String) (mems : List Nat) : Except RedisErr Store :=
  match st.lookup key with
  | none => .ok st
  | some (.set s) =>
    let s' := sremMems s mems
    if s'.isEmpty then .ok (st.erase key) else .ok (st.insert key (.set s'))
  | some (.hash _) => .error "WRONGTYPE"

/-- SMEMBERS command: the whole set, `[]` on a missing key; WRONGTYPE on a hash. -/
def redisSMEMBERS (st : Store) (key : String) : Except RedisErr (List Nat) :=
  match st.lookup key with
  | none => .ok []
  | some (.set s) => .ok s
  | some (.hash _) => .error "WRONGTYPE"

/-- EXISTS command: type-agnostic, never fails. -/
def redisEXISTS (st : Store) (key : String) : Except RedisErr Bool :=
  .ok (st.lookup key).isSome

/-- DEL command: type-agnostic; reports whether a key was actually removed. -/
def redisDEL (st : Store) (key : String) : Except RedisErr (Bool × Store) :=
  .ok ((st.lookup key).isSome, st.erase key)

/-- RENAME command: fails if the source key is absent, otherwise moves the value,
overwriting any destination; a success converts to the boolean `true` (redis-rs
turns the OK status into `true`). -/
def redisRENAME (st : Store) (src dst : String) : Except RedisErr (Bool × Store) :=
  match st.lookup src with
  | none => .error "no such key"
  | some v => .ok (true, (st.erase src).insert dst v)

/-! ## Connection handles and issued commands

`MultiplexedConnection` (redis-rs) is a cheaply clonable handle over one shared
multiplexed channel.  Every accessor in the source starts with
`let mut con = con.clone();` and issues its command through that local clone, so the
caller's handle is never mutated.  We record the handle as a value and each call's
issued commands separately. -/

/-- A store command as issued on the wire (command name plus key arguments). -/
inductive RedisCmd where
  | hset : String → RedisCmd
  | hgetall : String → RedisCmd
  | sadd : String → RedisCmd
  | srem : String → RedisCmd
  | smembers : String → RedisCmd
  | existsCmd : String → RedisCmd
  | del : String → RedisCmd
  | rename : String → String → RedisCmd
deriving DecidableEq, Repr

/-- Model of `redis::aio::MultiplexedConnection`: a handle with its local send log. -/
structure MultiplexedConnection where
  sent : List RedisCmd
deriving DecidableEq, Repr

/-- Everything a single accessor call produces: the value handed back to the caller
(`Option` wraps the unwrap-panics: `none` is an abort), the store afterwards, the
caller's connection handle after the call, and the commands the call issued through
its cloned handle. -/
structure CallResult (α : Type) where
  ret : α
  store : Store
  conn : MultiplexedConnection
  sent : List RedisCmd
deriving Repr

/-! ## Key builders

Source: `users.rs` (USER_PREFIX "users:", DEL_USER_PREFIX "del_users:",
USER_CONTS_PREFIX "conts_user:", GROUP_CONTS_PREFIX "conts_group:"),
`groups.rs` (GROUP_PREFIX "group:"), `device.rs` (CLIENT_DEVICE_PREFIX
"client_device:").  `ClientID` converts to `u64`; we model identifiers as `Nat`. -/

/-- users.rs `USER_PREFIX`. -/
def USER_PRE : String := "users:"

/-- users.rs `get_user_key`: `users:<id>`. -/
def get_user_key (clt : Nat) : String := USER_PRE ++ natDecimal clt

/-- users.rs `DEL_USER_PREFIX`. -/
def DEL_USER_PRE : String := "del_users:"

/-- users.rs `get_del_user_key`: `del_users:<id>`. -/
def get_del_user_key (clt : Nat) : String := DEL_USER_PRE ++ natDecimal clt

/-- users.rs `USER_CONTS_PREFIX`. -/
def USER_CONTS_PRE : String := "conts_user:"

/-- users.rs `get_user_conts_key`: `conts_user:<id>`. -/
def get_user_conts_key (clt : Nat) : String := USER_CONTS_PRE ++ natDecimal clt

/-- users.rs `GROUP_CONTS_PREFIX`. -/
def GROUP_CONTS_PRE : String := "conts_group:"

/-- users.rs `get_group_conts_key`: `conts_group:<id>`. -/
def get_group_conts_key (clt : Nat) : String := GROUP_CONTS_PRE ++ natDecimal clt

/-- groups.rs `GROUP_PREFIX`. -/
def GROUP_PRE : String := "group:"

/-- groups.rs `get_group_key`: `group:<id>`. -/
def get_group_key (clt : Nat) : String := GROUP_PRE ++ natDecimal clt

/-- device.rs `CLIENT_DEVICE_PREFIX`. -/
def CLIENT_DEVICE_PRE : String := "client_device:"

/-- device.rs `get_clt_dev_list_key`: `client_device:<id>`. -/
def get_clt_dev_list_key (clt : Nat) : String := CLIENT_DEVICE_PRE ++ natDecimal clt

/-- device.rs `get_clt_dev_hash_key`: `client_device:<id>:<dev>`. -/
def get_clt_dev_hash_key (clt : Nat) (dev : Nat) : String :=
  CLIENT_DEVICE_PRE ++ natDecimal clt ++ ":" ++ natDecimal dev

/-! ## Entity accessors, users.rs

Each definition mirrors one Rust function: clone the handle, build the key, issue a
single command, and either unwrap (`Option`, `none` = abort) or, for `remove_user`
alone, forward the store result unchanged. -/

/-- users.rs `add_user`: HSET of the payload on `users:<id>`, unwrapping the result. -/
def add_user (con : MultiplexedConnection) (st : Store) (clt : Nat)
    (hm : List (String × String)) : CallResult (Option Unit) :=
  match redisHSET st (get_user_key clt) hm with
  | .ok st' => ⟨some (), st', con, [.hset (get_user_key clt)]⟩
  | .error _ => ⟨none, st, con, [.hset (get_user_key clt)]⟩

/-- users.rs `get_user`: HGETALL of `users:<id>`, unwrapping the result. -/
def get_user (con : MultiplexedConnection) (st : Store) (clt : Nat) :
    CallResult (Option (List (String × String))) :=
  match redisHGETALL st (get_user_key clt) with
  | .ok h => ⟨some h, st, con, [.hgetall (get_user_key clt)]⟩
  | .error _ => ⟨none, st, con, [.hgetall (get_user_key clt)]⟩

/-- users.rs `exists_user`: EXISTS of `users:<id>`, unwrapped then rewrapped as `Ok`. -/
def exists_user (con : MultiplexedConnection) (st : Store) (clt : Nat) :
    CallResult (Option (Except RedisErr Bool)) :=
  match redisEXISTS st (get_user_key clt) with
  | .ok b => ⟨some (.ok b), st, con, [.existsCmd (get_user_key clt)]⟩
  | .error _ => ⟨none, st, con, [.existsCmd (get_user_key clt)]⟩

/-- users.rs `remove_user`: a single RENAME from `users:<id>` to `del_users:<id>`;
the store's result — success or error — is returned to the caller unchanged. -/
def remove_user (con : MultiplexedConnection) (st : Store) (clt : Nat) :
    CallResult (Except RedisErr Bool) :=
  match redisRENAME st (get_user_key clt) (get_del_user_key clt) with
  | .ok (b, st') => ⟨.ok b, st', con, [.rename (get_user_key clt) (get_del_user_key clt)]⟩
  | .error e => ⟨.error e, st, con, [.rename (get_user_key clt) (get_del_user_key clt)]⟩

/-- users.rs `add_user_contacts`: SADD on `conts_user:<id>`, unwrapping the result. -/
def add_user_contacts (con : MultiplexedConnection) (st : Store) (clt : Nat)
    (hs : List Nat) : CallResult (Option Unit) :=
  match redisSADD st (get_user_conts_key clt) hs with
  | .ok st' => ⟨some (), st', con, [.sadd (get_user_conts_key clt)]⟩
  | .error _ => ⟨none, st, con, [.sadd (get_user_conts_key clt)]⟩

/-- users.rs `del_user_contacts`: SREM on `conts_user:<id>`, unwrapping the result. -/
def del_user_contacts (con : MultiplexedConnection) (st : Store) (clt : Nat)
    (hs : List Nat) : CallResult (Option Unit) :=
  match redisSREM st (get_user_conts_key clt) hs with
  | .ok st' => ⟨some (), st', con, [.srem (get_user_conts_key clt)]⟩
  | .error _ => ⟨none, st, con, [.srem (get_user_conts_key clt)]⟩

/-- users.rs `get_user_contacts`: SMEMBERS of `conts_user:<id>`, unwrapping. -/
def get_user_contacts (con : MultiplexedConnection) (st : Store) (clt : Nat) :
    CallResult (Option (List Nat)) :=
  match redisSMEMBERS st (get_user_conts_key clt) with
  | .ok s => ⟨some s, st, con, [.smembers (get_user_conts_key clt)]⟩
  | .error _ => ⟨none, st, con, [.smembers (get_user_conts_key clt)]⟩

/-- users.rs `add_group_contacts`: SADD on `conts_group:<id>`, unwrapping. -/
def add_group_contacts (con : MultiplexedConnection) (st : Store) (clt : Nat)
    (hs : List Nat) : CallResult (Option Unit) :=
  match redisSADD st (get_group_conts_key clt) hs with
  | .ok st' => ⟨some (), st', con, [.sadd (get_group_conts_key clt)]⟩
  | .error _ => ⟨none, st, con, [.sadd (get_group_conts_key clt)]⟩

/-- users.rs `del_group_contacts`: SREM on `conts_group:<id>`, unwrapping. -/
def del_group_contacts (con : MultiplexedConnection) (st : Store) (clt : Nat)
    (hs : List Nat) : CallResult (Option Unit) :=
  match redisSREM st (get_group_conts_key clt) hs with
  | .ok st' => ⟨some (), st', con, [.srem (get_group_conts_key clt)]⟩
  | .error _ => ⟨none, st, con, [.srem (get_group_conts_key clt)]⟩

/-- users.rs `get_group_contacts`: SMEMBERS of `conts_group:<id>`, unwrapping. -/
def get_group_contacts (con : MultiplexedConnection) (st : Store) (clt : Nat) :
    CallResult (Option (List Nat)) :=
  match redisSMEMBERS st (get_group_conts_key clt) with
  | .ok s => ⟨some s, st, con, [.smembers (get_group_conts_key clt)]⟩
  | .error _ => ⟨none, st, con, [.smembers (get_group_conts_key clt)]⟩

/-! ## Entity accessors, groups.rs -/

/-- groups.rs `add_group`: SADD on `group:<id>`, unwrapping the result. -/
def add_group (con : MultiplexedConnection) (st : Store) (clt : Nat)
    (hs : List Nat) : CallResult (Option Unit) :=
  match redisSADD st (get_group_key clt) hs with
  | .ok st' => ⟨some (), st', con, [.sadd (get_group_key clt)]⟩
  | .error _ => ⟨none, st, con, [.sadd (get_group_key clt)]⟩

/-- groups.rs `del_group`: SREM on `group:<id>`, unwrapping the result. -/
def del_group (con : MultiplexedConnection) (st : Store) (clt : Nat)
    (hs : List Nat) : CallResult (Option Unit) :=
  match redisSREM st (get_group_key clt) hs with
  | .ok st' => ⟨some (), st', con, [.srem (get_group_key clt)]⟩
  | .error _ => ⟨none, st, con, [.srem (get_group_key clt)]⟩

/-- groups.rs `get_group`: SMEMBERS of `group:<id>`, unwrapping the result. -/
def get_group (con : MultiplexedConnection) (st : Store) (clt : Nat) :
    CallResult (Option (List Nat)) :=
  match redisSMEMBERS st (get_group_key clt) with
  | .ok s => ⟨some s, st, con, [.smembers (get_group_key clt)]⟩
  | .error _ => ⟨none, st, con, [.smembers (get_group_key clt)]⟩

/-- groups.rs `exists_group`: EXISTS of `group:<id>`, unwrapped then rewrapped. -/
def exists_group (con : MultiplexedConnection) (st : Store) (clt : Nat) :
    CallResult (Option (Except RedisErr Bool)) :=
  match redisEXISTS st (get_group_key clt) with
  | .ok b => ⟨some (.ok b), st, con, [.existsCmd (get_group_key clt)]⟩
  | .error _ => ⟨none, st, con, [.existsCmd (get_group_key clt)]⟩

/-- groups.rs `remove_group`: DEL of `group:<id>`, unwrapped then rewrapped. -/
def remove_group (con : MultiplexedConnection) (st : Store) (clt : Nat) :
    CallResult (Option (Except RedisErr Bool)) :=
  match redisDEL st (get_group_key clt) with
  | .ok (b, st') => ⟨some (.ok b), st', con, [.del (get_group_key clt)]⟩
  | .error _ => ⟨none, st, con, [.del (get_group_key clt)]⟩

/-! ## Entity accessors, device.rs -/

/-- device.rs `add_dev2clt`: SADD on `client_device:<id>`, unwrapping the result. -/
def add_dev2clt (con : MultiplexedConnection) (st : Store) (clt : Nat)
    (devs : List Nat) : CallResult (Option Unit) :=
  match redisSADD st (get_clt_dev_list_key clt) devs with
  | .ok st' => ⟨some (), st', con, [.sadd (get_clt_dev_list_key clt)]⟩
  | .error _ => ⟨none, st, con, [.sadd (get_clt_dev_list_key clt)]⟩

/-- device.rs `del_dev4clt`: SREM on `client_device:<id>`, unwrapping the result. -/
def del_dev4clt (con : MultiplexedConnection) (st : Store) (clt : Nat)
    (devs : List Nat) : CallResult (Option Unit) :=
  match redisSREM st (get_clt_dev_list_key clt) devs with
  | .ok st' => ⟨some (), st', con, [.srem (get_clt_dev_list_key clt)]⟩
  | .error _ => ⟨none, st, con, [.srem (get_clt_dev_list_key clt)]⟩

/-- device.rs `get_devclt_set`: SMEMBERS of `client_device:<id>`, unwrapping. -/
def get_devclt_set (con : MultiplexedConnection) (st : Store) (clt : Nat) :
    CallResult (Option (List Nat)) :=
  match redisSMEMBERS st (get_clt_dev_list_key clt) with
  | .ok s => ⟨some s, st, con, [.smembers (get_clt_dev_list_key clt)]⟩
  | .error _ => ⟨none, st, con, [.smembers (get_clt_dev_list_key clt)]⟩

/-- device.rs `exists_devclt`: EXISTS of `client_device:<id>`, rewrapped as `Ok`. -/
def exists_devclt (con : MultiplexedConnection) (st : Store) (clt : Nat) :
    CallResult (Option (Except RedisErr Bool)) :=
  match redisEXISTS st (get_clt_dev_list_key clt) with
  | .ok b => ⟨some (.ok b), st, con, [.existsCmd (get_clt_dev_list_key clt)]⟩
  | .error _ => ⟨none, st, con, [.existsCmd (get_clt_dev_list_key clt)]⟩

/-- device.rs `remove_devclt_set`: DEL of `client_device:<id>`, rewrapped as `Ok`. -/
def remove_devclt_set (con : MultiplexedConnection) (st : Store) (clt : Nat) :
    CallResult (Option (Except RedisErr Bool)) :=
  match redisDEL st (get_clt_dev_list_key clt) with
  | .ok (b, st') => ⟨some (.ok b), st', con, [.del (get_clt_dev_list_key clt)]⟩
  | .error _ => ⟨none, st, con, [.del (get_clt_dev_list_key clt)]⟩

/-- device.rs `add_dev2clt_hash`: HSET of the payload on `client_device:<id>:<dev>`. -/
def add_dev2clt_hash (con : MultiplexedConnection) (st : Store) (clt : Nat) (dev : Nat)
    (hm : List (String × String)) : CallResult (Option Unit) :=
  match redisHSET st (get_clt_dev_hash_key clt dev) hm with
  | .ok st' => ⟨some (), st', con, [.hset (get_clt_dev_hash_key clt dev)]⟩
  | .error _ => ⟨none, st, con, [.hset (get_clt_dev_hash_key clt dev)]⟩

/-- device.rs `get_device`: HGETALL of `client_device:<id>:<dev>`, unwrapping. -/
def get_device (con : MultiplexedConnection) (st : Store) (clt : Nat) (dev : Nat) :
    CallResult (Option (List (String × String))) :=
  match redisHGETALL st (get_clt_dev_hash_key clt dev) with
  | .ok h => ⟨some h, st, con, [.hgetall (get_clt_dev_hash_key clt dev)]⟩
  | .error _ => ⟨none, st, con, [.hgetall (get_clt_dev_hash_key clt dev)]⟩

/-- device.rs `exists_device`: EXISTS of `client_device:<id>:<dev>`, rewrapped. -/
def exists_device (con : MultiplexedConnection) (st : Store) (clt : Nat) (dev : Nat) :
    CallResult (Option (Except RedisErr Bool)) :=
  match redisEXISTS st (get_clt_dev_hash_key clt dev) with
  | .ok b => ⟨some (.ok b), st, con, [.existsCmd (get_clt_dev_hash_key clt dev)]⟩
  | .error _ => ⟨none, st, con, [.existsCmd (get_clt_dev_hash_key clt dev)]⟩

/-- device.rs `remove_device`: DEL of `client_device:<id>:<dev>`, rewrapped as `Ok`. -/
def remove_device (con : MultiplexedConnection) (st : Store) (clt : Nat) (dev : Nat) :
    CallResult (Option (Except RedisErr Bool)) :=
  match redisDEL st (get_clt_dev_hash_key clt dev) with
  | .ok (b, st') => ⟨some (.ok b), st', con, [.del (get_clt_dev_hash_key clt dev)]⟩
  | .error _ => ⟨none, st, con, [.del (get_clt_dev_hash_key clt dev)]⟩

/-! ## Connection provider, mod.rs -/

/-- Model of `redis::Client`: remembers the URL it was opened from. -/
structure RedisClient where
  url : String
deriving DecidableEq, Repr

/-- mod.rs `RedisDBManager`: a client plus a multiplexed connection. -/
structure RedisDBManager where
  client : RedisClient
  connect : MultiplexedConnection
deriving DecidableEq, Repr

/-- mod.rs `init_redis_database`.  `openOk` models whether `redis::Client::open`
succeeds for a URL and `connectOk` whether `get_multiplexed_tokio_connection`
succeeds; both run unconditionally before the `get_or_init`, so every call opens a
fresh client and connection.  The result carries the manager returned to the caller,
the singleton cell after the call, and the URLs for which a connection was opened
during the call. -/
def init_redis_database (openOk connectOk : String → Bool)
    (singleton : Option RedisDBManager) (redis_url : String) :
    Except RedisErr (RedisDBManager × Option RedisDBManager × List String) :=
  if openOk redis_url then
    let clt : RedisClient := ⟨redis_url⟩
    if connectOk redis_url then
      let con : MultiplexedConnection := ⟨[]⟩
      match singleton with
      | some m => .ok (m, some m, [redis_url])
      | none => .ok (⟨clt, con⟩, some ⟨clt, con⟩, [redis_url])
    else .error "connection failed"
  else .error "invalid url"

/-! ## Key classification by prefix (spec section 3 invariant)

A key's structure type is fixed by its prefix: `users:`, `del_users:` and
`client_device:<id>:<dev>` keys are hashes, `group:`, `conts_user:`, `conts_group:`
and `client_device:<id>` keys are sets. -/

/-- The structure type a key is supposed to hold. -/
inductive KeyKind where
  | khash
  | kset
deriving DecidableEq, Repr

/-- Classify a key string by its prefix; within the `client_device:` namespace a
further `:` separates the device record (hash) from the device list (set). -/
def keyKind (k : String) : Option KeyKind :=
  if listStarts "users:".data k.data then some .khash
  else if listStarts "del_users:".data k.data then some .khash
  else if listStarts "group:".data k.data then some .kset
  else if listStarts "conts_user:".data k.data then some .kset
  else if listStarts "conts_group:".data k.data then some .kset
  else if listStarts "client_device:".data k.data then
    if (k.data.drop 14).contains ':' then some .khash else some .kset
  else none

theorem user_key_data (clt : Nat) :
    (get_user_key clt).data = "users:".data ++ (natDecimal clt).data := rfl

theorem del_user_key_data (clt : Nat) :
    (get_del_user_key clt).data = "del_users:".data ++ (natDecimal clt).data := rfl

theorem user_conts_key_data (clt : Nat) :
    (get_user_conts_key clt).data = "conts_user:".data ++ (natDecimal clt).data := rfl

theorem group_conts_key_data (clt : Nat) :
    (get_group_conts_key clt).data = "conts_group:".data ++ (natDecimal clt).data := rfl

theorem group_key_data (clt : Nat) :
    (get_group_key clt).data = "group:".data ++ (natDecimal clt).data := rfl

theorem dev_list_key_data (clt : Nat) :
    (get_clt_dev_list_key clt).data = "client_device:".data ++ (natDecimal clt).data := rfl

theorem dev_hash_key_data (clt dev : Nat) :
    (get_clt_dev_hash_key clt dev).data =
      "client_device:".data ++ ((natDecimal clt).data ++ ':' :: (natDecimal dev).data) := by
  show ((("client_device:".data ++ (natDecimal clt).data) ++ [':']) ++ (natDecimal dev).data) =
    "client_device:".data ++ ((natDecimal clt).data ++ ':' :: (natDecimal dev).data)
  simp [List.append_assoc]

theorem keyKind_user_key (clt : Nat) : keyKind (get_user_key clt) = some .khash := by
  simp [keyKind, user_key_data, listStarts]

theorem keyKind_del_user_key (clt : Nat) :
    keyKind (get_del_user_key clt) = some .khash := by
  simp [keyKind, del_user_key_data, listStarts]

theorem keyKind_group_key (clt : Nat) : keyKind (get_group_key clt) = some .kset := by
  simp [keyKind, group_key_data, listStarts]

theorem keyKind_user_conts_key (clt : Nat) :
    keyKind (get_user_conts_key clt) = some .kset := by
  simp [keyKind, user_conts_key_data, listStarts]

theorem keyKind_group_conts_key (clt : Nat) :
    keyKind (get_group_conts_key clt) = some .kset := by
  simp [keyKind, group_conts_key_data, listStarts]

theorem keyKind_dev_list_key (clt : Nat) :
    keyKind (get_clt_dev_list_key clt) = some .kset := by
  simp [keyKind, dev_list_key_data, listStarts, natDecimal_no_colon clt]

theorem keyKind_dev_hash_key (clt dev : Nat) :
    keyKind (get_clt_dev_hash_key clt dev) = some .khash := by
  simp [keyKind, dev_hash_key_data, listStarts]

/-- Type-correctness of a single issued command: hash commands only against
hash-classified keys, set commands only against set-classified keys; EXISTS and DEL
are type-agnostic, and the one RENAME moves a hash key to a hash key. -/
def cmdOk : RedisCmd → Bool
  | .hset k => keyKind k == some .khash
  | .hgetall k => keyKind k == some .khash
  | .sadd k => keyKind k == some .kset
  | .srem k => keyKind k == some .kset
  | .smembers k => keyKind k == some .kset
  | .existsCmd _ => true
  | .del _ => true
  | .rename src dst => (keyKind src == some .khash) && (keyKind dst == some .khash)

/-! Payload-level facts about the hash and set write primitives. -/

theorem contains_eq_false_of_not_mem {l : List Nat} {m : Nat} (h : m ∉ l) :
    l.contains m = false := by
  simpa using h

theorem saddMems_disjoint :
    ∀ (mems acc : List Nat), mems.Nodup → (∀ m ∈ mems, m ∉ acc) →
      saddMems acc mems = acc ++ mems := by
  intro mems
  induction mems with
  | nil => intro acc _ _; simp [saddMems]
  | cons m rest ih =>
    intro acc hnd hdis
    have hm : m ∉ acc := hdis m (List.mem_cons_self m rest)
    have step : saddMems acc (m :: rest) = saddMems (acc ++ [m]) rest := by
      simp [saddMems, hm]
    have hnd' : rest.Nodup := (List.nodup_cons.mp hnd).2
    have hml : m ∉ rest := (List.nodup_cons.mp hnd).1
    have hdis' : ∀ x ∈ rest, x ∉ acc ++ [m] := by
      intro x hx hmem
      rcases List.mem_append.mp hmem with hacc | hsing
      · exact hdis x (List.mem_cons_of_mem m hx) hacc
      · exact hml ((List.mem_singleton.mp hsing) ▸ hx)
    rw [step, ih (acc ++ [m]) hnd' hdis']
    simp

theorem saddMems_nil {mems : List Nat} (h : mems.Nodup) : saddMems [] mems = mems := by
  simpa using saddMems_disjoint mems [] h (by simp)

theorem hsetField_append {acc : List (String × String)} {f v : String}
    (h : f ∉ acc.map Prod.fst) : hsetField acc f v = acc ++ [(f, v)] := by
  induction acc with
  | nil => rfl
  | cons p rest ih =>
    obtain ⟨g, w⟩ := p
    simp only [List.map_cons, List.mem_cons, not_or] at h
    rw [hsetField, if_neg (fun hgf => h.1 hgf.symm), ih h.2]
    rfl

theorem hsetFields_disjoint :
    ∀ (pairs acc : List (String × String)), (pairs.map Prod.fst).Nodup →
      (∀ q ∈ pairs, q.1 ∉ acc.map Prod.fst) → hsetFields acc pairs = acc ++ pairs := by
  intro pairs
  induction pairs with
  | nil => intro acc _ _; simp [hsetFields]
  | cons p rest ih =>
    obtain ⟨f, v⟩ := p
    intro acc hnd hdis
    have hf : f ∉ acc.map Prod.fst := hdis (f, v) (List.mem_cons_self _ _)
    have step : hsetFields acc ((f, v) :: rest) = hsetFields (hsetField acc f v) rest := by
      simp [hsetFields]
    have hnd' : (rest.map Prod.fst).Nodup := (List.nodup_cons.mp (by simpa using hnd)).2
    have hfr : f ∉ rest.map Prod.fst := (List.nodup_cons.mp (by simpa using hnd)).1
    have hdis' : ∀ q ∈ rest, q.1 ∉ (acc ++ [(f, v)]).map Prod.fst := by
      intro q hq hmem
      rw [List.map_append] at hmem
      rcases List.mem_append.mp hmem with hacc | hsing
      · exact hdis q (List.mem_cons_of_mem _ hq) hacc
      · have hq1 : q.1 = f := by simpa using hsing
        exact hfr (hq1 ▸ List.mem_map_of_mem Prod.fst hq)
    rw [step, hsetField_append hf, ih (acc ++ [(f, v)]) hnd' hdis']
    simp

theorem hsetFields_nil {pairs : List (String × String)}
    (h : (pairs.map Prod.fst).Nodup) : hsetFields [] pairs = pairs := by
  simpa using hsetFields_disjoint pairs [] h (by simp)

theorem srem_no_mem (s hs : List Nat) (x : Nat) (hx : x ∈ hs) : x ∉ sremMems s hs := by
  intro hmem
  rw [sremMems] at hmem
  have h2 := (List.mem_filter.mp hmem).2
  simp at h2
  exact h2 hx

/-- After an SREM on a set-typed key, a subsequent SMEMBERS contains none of the
removed members (covering the empty-set key deletion). -/
theorem set_key_after_srem (st : Store) (key : String) (s hs : List Nat)
    (h : st.lookup key = some (.set s)) :
    ∃ st' l, redisSREM st key hs = .ok st' ∧ redisSMEMBERS st' key = .ok l ∧
      ∀ x ∈ hs, x ∉ l := by
  by_cases he : (sremMems s hs).isEmpty
  · refine ⟨st.erase key, [], ?_, ?_, by simp⟩
    · simp [redisSREM, h, he]
    · simp [redisSMEMBERS, Store.lookup_erase]
  · refine ⟨st.insert key (.set (sremMems s hs)), sremMems s hs, ?_, ?_, ?_⟩
    · simp [redisSREM, h, he]
    · simp [redisSMEMBERS, Store.lookup_insert]
    · intro x hx
      exact srem_no_mem s hs x hx

/-! ## Claim theorems -/

/-- C8: every key builder is a pure, deterministic, total function producing the
entity's fixed prefix followed by the identifier's decimal representation — and for
device records the decimal device id after a further colon; no identifier value is
rejected (the functions are total over all modelled u64/u32 values).  The trailing
conjuncts certify that `natDecimal` really is the decimal representation: it is made
of digit characters only and evaluates back to the identifier. -/
theorem C8_key_builders (clt dev : Nat) :
    get_user_key clt = "users:" ++ natDecimal clt ∧
    get_del_user_key clt = "del_users:" ++ natDecimal clt ∧
    get_user_conts_key clt = "conts_user:" ++ natDecimal clt ∧
    get_group_conts_key clt = "conts_group:" ++ natDecimal clt ∧
    get_group_key clt = "group:" ++ natDecimal clt ∧
    get_clt_dev_list_key clt = "client_device:" ++ natDecimal clt ∧
    get_clt_dev_hash_key clt dev = "client_device:" ++ natDecimal clt ++ ":" ++ natDecimal dev ∧
    decimalVal (natDecimal clt).data = clt ∧
    decimalVal (natDecimal dev).data = dev ∧
    (natDecimal clt).data.all isDigitChar = true :=
  ⟨rfl, rfl, rfl, rfl, rfl, rfl, rfl, decimalVal_natDecimal clt, decimalVal_natDecimal dev,
    natDecimal_all_digits clt⟩

/-- C9: the key builders are injective within each entity kind and have pairwise
disjoint ranges across kinds; in particular a device-record key
`client_device:<id>:<dev>` never collides with a device-list key
`client_device:<id>`. -/
theorem C9_key_injective_disjoint (a b da db : Nat) :
    (get_user_key a = get_user_key b → a = b) ∧
    (get_del_user_key a = get_del_user_key b → a = b) ∧
    (get_user_conts_key a = get_user_conts_key b → a = b) ∧
    (get_group_conts_key a = get_group_conts_key b → a = b) ∧
    (get_group_key a = get_group_key b → a = b) ∧
    (get_clt_dev_list_key a = get_clt_dev_list_key b → a = b) ∧
    (get_clt_dev_hash_key a da = get_clt_dev_hash_key b db → a = b ∧ da = db) ∧
    get_user_key a ≠ get_del_user_key b ∧
    get_user_key a ≠ get_user_conts_key b ∧
    get_user_key a ≠ get_group_conts_key b ∧
    get_user_key a ≠ get_group_key b ∧
    get_user_key a ≠ get_clt_dev_list_key b ∧
    get_user_key a ≠ get_clt_dev_hash_key b db ∧
    get_del_user_key a ≠ get_user_conts_key b ∧
    get_del_user_key a ≠ get_group_conts_key b ∧
    get_del_user_key a ≠ get_group_key b ∧
    get_del_user_key a ≠ get_clt_dev_list_key b ∧
    get_del_user_key a ≠ get_clt_dev_hash_key b db ∧
    get_user_conts_key a ≠ get_group_conts_key b ∧
    get_user_conts_key a ≠ get_group_key b ∧
    get_user_conts_key a ≠ get_clt_dev_list_key b ∧
    get_user_conts_key a ≠ get_clt_dev_hash_key b db ∧
    get_group_conts_key a ≠ get_group_key b ∧
    get_group_conts_key a ≠ get_clt_dev_list_key b ∧
    get_group_conts_key a ≠ get_clt_dev_hash_key b db ∧
    get_group_key a ≠ get_clt_dev_list_key b ∧
    get_group_key a ≠ get_clt_dev_hash_key b db ∧
    get_clt_dev_list_key a ≠ get_clt_dev_hash_key b db := by
  have keyInj : ∀ (p : String) (x y : Nat), p ++ natDecimal x = p ++ natDecimal y → x = y := by
    intro p x y h
    have hd := congrArg String.data h
    rw [str_data_append, str_data_append] at hd
    exact natDecimal_inj (str_ext (List.append_cancel_left hd))
  refine ⟨keyInj _ a b, keyInj _ a b, keyInj _ a b, keyInj _ a b, keyInj _ a b, keyInj _ a b,
    ?_, ?_, ?_, ?_, ?_, ?_, ?_, ?_, ?_, ?_, ?_, ?_, ?_, ?_, ?_, ?_, ?_, ?_, ?_, ?_, ?_, ?_⟩
  · intro h
    have hd := congrArg String.data h
    rw [dev_hash_key_data, dev_hash_key_data] at hd
    obtain ⟨h3, h4⟩ := colon_split _ _ _ _ (natDecimal_no_colon a) (natDecimal_no_colon b)
      (List.append_cancel_left hd)
    exact ⟨natDecimal_inj (str_ext h3), natDecimal_inj (str_ext h4)⟩
  · exact fun he => append_data_ne 0 (by decide) (by decide) (by decide)
      (user_key_data a ▸ del_user_key_data b ▸ congrArg String.data he)
  · exact fun he => append_data_ne 0 (by decide) (by decide) (by decide)
      (user_key_data a ▸ user_conts_key_data b ▸ congrArg String.data he)
  · exact fun he => append_data_ne 0 (by decide) (by decide) (by decide)
      (user_key_data a ▸ group_conts_key_data b ▸ congrArg String.data he)
  · exact fun he => append_data_ne 0 (by decide) (by decide) (by decide)
      (user_key_data a ▸ group_key_data b ▸ congrArg String.data he)
  · exact fun he => append_data_ne 0 (by decide) (by decide) (by decide)
      (user_key_data a ▸ dev_list_key_data b ▸ congrArg String.data he)
  · exact fun he => append_data_ne 0 (by decide) (by decide) (by decide)
      (user_key_data a ▸ dev_hash_key_data b db ▸ congrArg String.data he)
  · exact fun he => append_data_ne 0 (by decide) (by decide) (by decide)
      (del_user_key_data a ▸ user_conts_key_data b ▸ congrArg String.data he)
  · exact fun he => append_data_ne 0 (by decide) (by decide) (by decide)
      (del_user_key_data a ▸ group_conts_key_data b ▸ congrArg String.data he)
  · exact fun he => append_data_ne 0 (by decide) (by decide) (by decide)
      (del_user_key_data a ▸ group_key_data b ▸ congrArg String.data he)
  · exact fun he => append_data_ne 0 (by decide) (by decide) (by decide)
      (del_user_key_data a ▸ dev_list_key_data b ▸ congrArg String.data he)
  · exact fun he => append_data_ne 0 (by decide) (by decide) (by decide)
      (del_user_key_data a ▸ dev_hash_key_data b db ▸ congrArg String.data he)
  · exact fun he => append_data_ne 6 (by decide) (by decide) (by decide)
      (user_conts_key_data a ▸ group_conts_key_data b ▸ congrArg String.data he)
  · exact fun he => append_data_ne 0 (by decide) (by decide) (by decide)
      (user_conts_key_data a ▸ group_key_data b ▸ congrArg String.data he)
  · exact fun he => append_data_ne 1 (by decide) (by decide) (by decide)
      (user_conts_key_data a ▸ dev_list_key_data b ▸ congrArg String.data he)
  · exact fun he => append_data_ne 1 (by decide) (by decide) (by decide)
      (user_conts_key_data a ▸ dev_hash_key_data b db ▸ congrArg String.data he)
  · exact fun he => append_data_ne 0 (by decide) (by decide) (by decide)
      (group_conts_key_data a ▸ group_key_data b ▸ congrArg String.data he)
  · exact fun he => append_data_ne 1 (by decide) (by decide) (by decide)
      (group_conts_key_data a ▸ dev_list_key_data b ▸ congrArg String.data he)
  · exact fun he => append_data_ne 1 (by decide) (by decide) (by decide)
      (group_conts_key_data a ▸ dev_hash_key_data b db ▸ congrArg String.data he)
  · exact fun he => append_data_ne 0 (by decide) (by decide) (by decide)
      (group_key_data a ▸ dev_list_key_data b ▸ congrArg String.data he)
  · exact fun he => append_data_ne 0 (by decide) (by decide) (by decide)
      (group_key_data a ▸ dev_hash_key_data b db ▸ congrArg String.data he)
  · intro he
    have hd := congrArg String.data he
    rw [dev_list_key_data, dev_hash_key_data] at hd
    have h2 := List.append_cancel_left hd
    have h3 : ':' ∈ (natDecimal a).data := by
      rw [h2]
      exact List.mem_append_right _ (List.mem_cons_self ':' _)
    exact natDecimal_no_colon a h3

/-- C9 witness: injectivity implications discharged at concrete equal identifiers,
plus a concrete cross-kind disjointness instance. -/
theorem C9_key_injective_disjoint_witness :
    (3 : Nat) = 3 ∧ ((5 : Nat) = 5 ∧ (7 : Nat) = 7) ∧ get_user_key 2 ≠ get_del_user_key 2 :=
  ⟨(C9_key_injective_disjoint 3 3 0 0).1 rfl,
   (C9_key_injective_disjoint 5 5 7 7).2.2.2.2.2.2.1 rfl,
   (C9_key_injective_disjoint 2 2 0 0).2.2.2.2.2.2.2.1⟩

/-- The user key and the deleted-user key of any identifiers never coincide. -/
theorem user_key_ne_del_user_key (a b : Nat) : get_user_key a ≠ get_del_user_key b :=
  fun he => append_data_ne 0 (by decide) (by decide) (by decide)
    (user_key_data a ▸ del_user_key_data b ▸ congrArg String.data he)

/-- C1: `remove_user` issues a single RENAME from `users:<id>` to `del_users:<id>`;
when the user key exists with hash contents h, the call returns `Ok true`, afterwards
`exists_user` reports false while `del_users:<id>` holds exactly h, and a second
`remove_user` — like any call on an absent user key — returns the store's rename
error as an `Err`, never a boolean failure. -/
theorem C1_remove_user_rename (con c2 c3 : MultiplexedConnection) (st : Store) (clt : Nat) :
    (remove_user con st clt).sent =
      [RedisCmd.rename (get_user_key clt) (get_del_user_key clt)] ∧
    (∀ h, st.lookup (get_user_key clt) = some (.hash h) →
      (remove_user con st clt).ret = .ok true ∧
      (remove_user con st clt).store.lookup (get_del_user_key clt) = some (.hash h) ∧
      (exists_user c2 (remove_user con st clt).store clt).ret = some (.ok false) ∧
      ∃ e, (remove_user c3 (remove_user con st clt).store clt).ret = .error e) ∧
    (st.lookup (get_user_key clt) = none →
      ∃ e, (remove_user con st clt).ret = .error e) := by
  refine ⟨?_, ?_, ?_⟩
  · cases hr : redisRENAME st (get_user_key clt) (get_del_user_key clt) with
    | ok p => obtain ⟨b, st'⟩ := p; simp [remove_user, hr]
    | error e => simp [remove_user, hr]
  · intro h hh
    have hne : get_user_key clt ≠ get_del_user_key clt := user_key_ne_del_user_key clt clt
    have hst : (remove_user con st clt).store =
        (st.erase (get_user_key clt)).insert (get_del_user_key clt) (.hash h) := by
      simp [remove_user, redisRENAME, hh]
    have hret : (remove_user con st clt).ret = .ok true := by
      simp [remove_user, redisRENAME, hh]
    have hlk' : ((st.erase (get_user_key clt)).insert (get_del_user_key clt)
        (RVal.hash h)).lookup (get_user_key clt) = none := by
      rw [Store.lookup_insert_ne _ _ hne, Store.lookup_erase]
    have hlk : (remove_user con st clt).store.lookup (get_user_key clt) = none := by
      rw [hst]
      exact hlk'
    refine ⟨hret, ?_, ?_, ?_⟩
    · rw [hst]
      exact Store.lookup_insert _ _ _
    · simp [exists_user, redisEXISTS, hlk]
    · refine ⟨"no such key", ?_⟩
      rw [hst]
      simp [remove_user, redisRENAME, hlk']
  · intro h
    exact ⟨"no such key", by simp [remove_user, redisRENAME, h]⟩

/-- C1 witness: a concrete user hash at id 7 is renamed; afterwards the user is gone. -/
theorem C1_remove_user_rename_witness :
    (remove_user ⟨[]⟩ [("users:7", RVal.hash [("name", "John")])] 7).ret = Except.ok true ∧
    (exists_user ⟨[]⟩
      (remove_user ⟨[]⟩ [("users:7", RVal.hash [("name", "John")])] 7).store 7).ret =
      some (Except.ok false) :=
  ⟨((C1_remove_user_rename ⟨[]⟩ ⟨[]⟩ ⟨[]⟩ [("users:7", RVal.hash [("name", "John")])] 7).2.1
      [("name", "John")] (by decide)).1,
   ((C1_remove_user_rename ⟨[]⟩ ⟨[]⟩ ⟨[]⟩ [("users:7", RVal.hash [("name", "John")])] 7).2.1
      [("name", "John")] (by decide)).2.2.1⟩

/-- C2 counterexample: after a first successful `init` memoizes a manager for
`redis://a`, a second call with the URL `redis://b` (for which opening fails) returns
an error rather than the memoized handle, and even a second call with a URL that
opens successfully records a freshly opened connection (a nonempty opened-URL trace),
so subsequent calls do reopen a connection. -/
theorem C2_counterexample :
    init_redis_database (fun u => u == "redis://a") (fun u => u == "redis://a")
      none "redis://a" =
      .ok (⟨⟨"redis://a"⟩, ⟨[]⟩⟩, some ⟨⟨"redis://a"⟩, ⟨[]⟩⟩, ["redis://a"]) ∧
    init_redis_database (fun u => u == "redis://a") (fun u => u == "redis://a")
      (some ⟨⟨"redis://a"⟩, ⟨[]⟩⟩) "redis://b" = .error "invalid url" ∧
    init_redis_database (fun u => u == "redis://a") (fun u => u == "redis://a")
      (some ⟨⟨"redis://a"⟩, ⟨[]⟩⟩) "redis://a" =
      .ok (⟨⟨"redis://a"⟩, ⟨[]⟩⟩, some ⟨⟨"redis://a"⟩, ⟨[]⟩⟩, ["redis://a"]) := by
  refine ⟨?_, ?_, ?_⟩ <;> rfl

/-- C2 (amended): `init_redis_database` memoizes the first successfully constructed
manager; every call — first or subsequent — opens a fresh client and connection for
the URL it is given (the opened-URL trace is nonempty on success) and propagates an
open or connect failure as an `Err` even when a manager is already memoized; when the
open succeeds, a subsequent call discards the fresh connection and returns the
memoized manager unchanged, never replacing it (a mismatching-but-openable URL is
silently ignored). -/
theorem C2_init_memoization (openOk connectOk : String → Bool) (m : RedisDBManager)
    (url : String) :
    (openOk url = true → connectOk url = true →
      init_redis_database openOk connectOk (some m) url = .ok (m, some m, [url])) ∧
    (openOk url = false →
      init_redis_database openOk connectOk (some m) url = .error "invalid url") ∧
    (openOk url = true → connectOk url = false →
      init_redis_database openOk connectOk (some m) url = .error "connection failed") ∧
    (openOk url = true → connectOk url = true →
      init_redis_database openOk connectOk none url =
        .ok (⟨⟨url⟩, ⟨[]⟩⟩, some ⟨⟨url⟩, ⟨[]⟩⟩, [url])) := by
  refine ⟨?_, ?_, ?_, ?_⟩
  · intro h1 h2
    simp [init_redis_database, h1, h2]
  · intro h1
    simp [init_redis_database, h1]
  · intro h1 h2
    simp [init_redis_database, h1, h2]
  · intro h1 h2
    simp [init_redis_database, h1, h2]

/-- C2 amended-theorem witness at a concrete oracle, manager and URL. -/
theorem C2_init_memoization_witness :
    init_redis_database (fun u => u == "redis://a") (fun u => u == "redis://a")
      (some ⟨⟨"redis://a"⟩, ⟨[]⟩⟩) "redis://a" =
      .ok (⟨⟨"redis://a"⟩, ⟨[]⟩⟩, some ⟨⟨"redis://a"⟩, ⟨[]⟩⟩, ["redis://a"]) :=
  (C2_init_memoization (fun u => u == "redis://a") (fun u => u == "redis://a")
    ⟨⟨"redis://a"⟩, ⟨[]⟩⟩ "redis://a").1 (by decide) (by decide)

/-- C5: each whole-key delete — `remove_group`, `remove_devclt_set`, `remove_device`
— returns `Ok true` on the first call against an existing key and `Ok false` on a
second consecutive call against the same identifier. -/
theorem C5_delete_true_once (con c2 : MultiplexedConnection) (st : Store) (clt dev : Nat) :
    (st.lookup (get_group_key clt) ≠ none →
      (remove_group con st clt).ret = some (.ok true) ∧
      (remove_group c2 (remove_group con st clt).store clt).ret = some (.ok false)) ∧
    (st.lookup (get_clt_dev_list_key clt) ≠ none →
      (remove_devclt_set con st clt).ret = some (.ok true) ∧
      (remove_devclt_set c2 (remove_devclt_set con st clt).store clt).ret =
        some (.ok false)) ∧
    (st.lookup (get_clt_dev_hash_key clt dev) ≠ none →
      (remove_device con st clt dev).ret = some (.ok true) ∧
      (remove_device c2 (remove_device con st clt dev).store clt dev).ret =
        some (.ok false)) := by
  refine ⟨?_, ?_, ?_⟩
  · intro h
    have h1 : (st.lookup (get_group_key clt)).isSome = true :=
      Option.ne_none_iff_isSome.mp h
    exact ⟨by simp [remove_group, redisDEL, h1],
      by simp [remove_group, redisDEL, Store.lookup_erase]⟩
  · intro h
    have h1 : (st.lookup (get_clt_dev_list_key clt)).isSome = true :=
      Option.ne_none_iff_isSome.mp h
    exact ⟨by simp [remove_devclt_set, redisDEL, h1],
      by simp [remove_devclt_set, redisDEL, Store.lookup_erase]⟩
  · intro h
    have h1 : (st.lookup (get_clt_dev_hash_key clt dev)).isSome = true :=
      Option.ne_none_iff_isSome.mp h
    exact ⟨by simp [remove_device, redisDEL, h1],
      by simp [remove_device, redisDEL, Store.lookup_erase]⟩

/-- C5 witness: a store holding a group, a device list and a device record at id 5. -/
theorem C5_delete_true_once_witness :
    (remove_group ⟨[]⟩
      [("group:5", RVal.set [1]), ("client_device:5", RVal.set [2]),
        ("client_device:5:1", RVal.hash [("a", "b")])] 5).ret = some (.ok true) ∧
    (remove_devclt_set ⟨[]⟩
      [("group:5", RVal.set [1]), ("client_device:5", RVal.set [2]),
        ("client_device:5:1", RVal.hash [("a", "b")])] 5).ret = some (.ok true) ∧
    (remove_device ⟨[]⟩
      [("group:5", RVal.set [1]), ("client_device:5", RVal.set [2]),
        ("client_device:5:1", RVal.hash [("a", "b")])] 5 1).ret = some (.ok true) :=
  ⟨((C5_delete_true_once ⟨[]⟩ ⟨[]⟩
      [("group:5", RVal.set [1]), ("client_device:5", RVal.set [2]),
        ("client_device:5:1", RVal.hash [("a", "b")])] 5 1).1 (by decide)).1,
   ((C5_delete_true_once ⟨[]⟩ ⟨[]⟩
      [("group:5", RVal.set [1]), ("client_device:5", RVal.set [2]),
        ("client_device:5:1", RVal.hash [("a", "b")])] 5 1).2.1 (by decide)).1,
   ((C5_delete_true_once ⟨[]⟩ ⟨[]⟩
      [("group:5", RVal.set [1]), ("client_device:5", RVal.set [2]),
        ("client_device:5:1", RVal.hash [("a", "b")])] 5 1).2.2 (by decide)).1⟩

/-- C3: reading an entity immediately after adding a payload under a fresh key
returns exactly that payload — `get_group` after `add_group`, `get_user` after
`add_user`, `get_device` after `add_dev2clt_hash` — with set-union and
hash-field-overwrite semantics (the payloads here are duplicate-free, as Rust's
`HashSet`/`HashMap` arguments guarantee). -/
theorem C3_read_after_add (con c2 : MultiplexedConnection) (st : Store) (clt dev : Nat)
    (hm : List (String × String)) (hs : List Nat) :
    (st.lookup (get_group_key clt) = none → hs.Nodup →
      (get_group c2 (add_group con st clt hs).store clt).ret = some hs) ∧
    (st.lookup (get_user_key clt) = none → (hm.map Prod.fst).Nodup →
      (get_user c2 (add_user con st clt hm).store clt).ret = some hm) ∧
    (st.lookup (get_clt_dev_hash_key clt dev) = none → (hm.map Prod.fst).Nodup →
      (get_device c2 (add_dev2clt_hash con st clt dev hm).store clt dev).ret = some hm) := by
  refine ⟨?_, ?_, ?_⟩
  · intro h hnd
    have h1 : (add_group con st clt hs).store =
        st.insert (get_group_key clt) (.set hs) := by
      simp [add_group, redisSADD, h, saddMems_nil hnd]
    simp [get_group, redisSMEMBERS, h1, Store.lookup_insert]
  · intro h hnd
    have h1 : (add_user con st clt hm).store =
        st.insert (get_user_key clt) (.hash hm) := by
      simp [add_user, redisHSET, h, hsetFields_nil hnd]
    simp [get_user, redisHGETALL, h1, Store.lookup_insert]
  · intro h hnd
    have h1 : (add_dev2clt_hash con st clt dev hm).store =
        st.insert (get_clt_dev_hash_key clt dev) (.hash hm) := by
      simp [add_dev2clt_hash, redisHSET, h, hsetFields_nil hnd]
    simp [get_device, redisHGETALL, h1, Store.lookup_insert]

/-- C3 witness: concrete adds on an empty store read back exactly the payloads. -/
theorem C3_read_after_add_witness :
    (get_group ⟨[]⟩ (add_group ⟨[]⟩ [] 123 [456, 789]).store 123).ret = some [456, 789] ∧
    (get_user ⟨[]⟩ (add_user ⟨[]⟩ [] 123 [("name", "John"), ("age", "30")]).store 123).ret =
      some [("name", "John"), ("age", "30")] ∧
    (get_device ⟨[]⟩
      (add_dev2clt_hash ⟨[]⟩ [] 1001 1 [("name", "Device1")]).store 1001 1).ret =
      some [("name", "Device1")] :=
  ⟨(C3_read_after_add ⟨[]⟩ ⟨[]⟩ [] 123 1 [("name", "John"), ("age", "30")]
      [456, 789]).1 (by decide) (by decide),
   (C3_read_after_add ⟨[]⟩ ⟨[]⟩ [] 123 1 [("name", "John"), ("age", "30")]
      [456, 789]).2.1 (by decide) (by decide),
   (C3_read_after_add ⟨[]⟩ ⟨[]⟩ [] 1001 1 [("name", "Device1")] []).2.2
      (by decide) (by decide)⟩

/-- C4: on a set-typed entity whose key is absent or holds a set, removing a payload
right after adding it — `del_group` after `add_group`, `del_user_contacts` after
`add_user_contacts` — leaves a subsequent read containing no element of the payload. -/
theorem C4_remove_after_add (con c2 c3 : MultiplexedConnection) (st : Store) (clt : Nat)
    (hs : List Nat) :
    ((st.lookup (get_group_key clt) = none ∨
        ∃ s, st.lookup (get_group_key clt) = some (.set s)) →
      ∃ l, (get_group c3
          (del_group c2 (add_group con st clt hs).store clt hs).store clt).ret = some l ∧
        ∀ x ∈ hs, x ∉ l) ∧
    ((st.lookup (get_user_conts_key clt) = none ∨
        ∃ s, st.lookup (get_user_conts_key clt) = some (.set s)) →
      ∃ l, (get_user_contacts c3
          (del_user_contacts c2 (add_user_contacts con st clt hs).store clt hs).store
          clt).ret = some l ∧
        ∀ x ∈ hs, x ∉ l) := by
  constructor
  · intro hwt
    obtain hlk | ⟨s, hlk⟩ := hwt
    · have h1 : (add_group con st clt hs).store =
          st.insert (get_group_key clt) (.set (saddMems [] hs)) := by
        simp [add_group, redisSADD, hlk]
      have h2 : (add_group con st clt hs).store.lookup (get_group_key clt) =
          some (.set (saddMems [] hs)) := by
        rw [h1]
        exact Store.lookup_insert _ _ _
      obtain ⟨st', l, hsrem, hsm, hnomem⟩ :=
        set_key_after_srem _ (get_group_key clt) (saddMems [] hs) hs h2
      refine ⟨l, ?_, hnomem⟩
      have h3 : (del_group c2 (add_group con st clt hs).store clt hs).store = st' := by
        simp [del_group, hsrem]
      simp [get_group, h3, hsm]
    · have h1 : (add_group con st clt hs).store =
          st.insert (get_group_key clt) (.set (saddMems s hs)) := by
        simp [add_group, redisSADD, hlk]
      have h2 : (add_group con st clt hs).store.lookup (get_group_key clt) =
          some (.set (saddMems s hs)) := by
        rw [h1]
        exact Store.lookup_insert _ _ _
      obtain ⟨st', l, hsrem, hsm, hnomem⟩ :=
        set_key_after_srem _ (get_group_key clt) (saddMems s hs) hs h2
      refine ⟨l, ?_, hnomem⟩
      have h3 : (del_group c2 (add_group con st clt hs).store clt hs).store = st' := by
        simp [del_group, hsrem]
      simp [get_group, h3, hsm]
  · intro hwt
    obtain hlk | ⟨s, hlk⟩ := hwt
    · have h1 : (add_user_contacts con st clt hs).store =
          st.insert (get_user_conts_key clt) (.set (saddMems [] hs)) := by
        simp [add_user_contacts, redisSADD, hlk]
      have h2 : (add_user_contacts con st clt hs).store.lookup (get_user_conts_key clt) =
          some (.set (saddMems [] hs)) := by
        rw [h1]
        exact Store.lookup_insert _ _ _
      obtain ⟨st', l, hsrem, hsm, hnomem⟩ :=
        set_key_after_srem _ (get_user_conts_key clt) (saddMems [] hs) hs h2
      refine ⟨l, ?_, hnomem⟩
      have h3 : (del_user_contacts c2 (add_user_contacts con st clt hs).store clt
          hs).store = st' := by
        simp [del_user_contacts, hsrem]
      simp [get_user_contacts, h3, hsm]
    · have h1 : (add_user_contacts con st clt hs).store =
          st.insert (get_user_conts_key clt) (.set (saddMems s hs)) := by
        simp [add_user_contacts, redisSADD, hlk]
      have h2 : (add_user_contacts con st clt hs).store.lookup (get_user_conts_key clt) =
          some (.set (saddMems s hs)) := by
        rw [h1]
        exact Store.lookup_insert _ _ _
      obtain ⟨st', l, hsrem, hsm, hnomem⟩ :=
        set_key_after_srem _ (get_user_conts_key clt) (saddMems s hs) hs h2
      refine ⟨l, ?_, hnomem⟩
      have h3 : (del_user_contacts c2 (add_user_contacts con st clt hs).store clt
          hs).store = st' := by
        simp [del_user_contacts, hsrem]
      simp [get_user_contacts, h3, hsm]

/-- C4 witness: add-then-remove of `{456, 789}` leaves reads containing neither. -/
theorem C4_remove_after_add_witness :
    (∃ l, (get_group ⟨[]⟩
        (del_group ⟨[]⟩ (add_group ⟨[]⟩ [] 123 [456, 789]).store 123 [456, 789]).store
        123).ret = some l ∧ ∀ x ∈ [456, 789], x ∉ l) ∧
    ∃ l, (get_user_contacts ⟨[]⟩
        (del_user_contacts ⟨[]⟩ (add_user_contacts ⟨[]⟩ [] 123 [456, 789]).store 123
          [456, 789]).store 123).ret = some l ∧ ∀ x ∈ [456, 789], x ∉ l :=
  ⟨(C4_remove_after_add ⟨[]⟩ ⟨[]⟩ ⟨[]⟩ [] 123 [456, 789]).1 (Or.inl (by decide)),
   (C4_remove_after_add ⟨[]⟩ ⟨[]⟩ ⟨[]⟩ [] 123 [456, 789]).2 (Or.inl (by decide))⟩

/-- C6: every accessor other than `remove_user` turns a store-command failure into
an abort (`none`, the unwrap panic) with no partial result rather than returning the
error; consequently the `RedisResult`-of-bool accessors `exists_user`, `exists_group`,
`exists_devclt`, `exists_device`, `remove_group`, `remove_devclt_set` and
`remove_device` never hand an `Err` back to the caller. -/
theorem C6_error_policy (con : MultiplexedConnection) (st : Store) (clt dev : Nat) :
    (∀ e, (exists_user con st clt).ret ≠ some (.error e)) ∧
    (∀ e, (exists_group con st clt).ret ≠ some (.error e)) ∧
    (∀ e, (exists_devclt con st clt).ret ≠ some (.error e)) ∧
    (∀ e, (exists_device con st clt dev).ret ≠ some (.error e)) ∧
    (∀ e, (remove_group con st clt).ret ≠ some (.error e)) ∧
    (∀ e, (remove_devclt_set con st clt).ret ≠ some (.error e)) ∧
    (∀ e, (remove_device con st clt dev).ret ≠ some (.error e)) ∧
    (∀ s hm, st.lookup (get_user_key clt) = some (.set s) →
      (add_user con st clt hm).ret = none ∧ (add_user con st clt hm).store = st ∧
      (get_user con st clt).ret = none) ∧
    (∀ h hs, st.lookup (get_user_conts_key clt) = some (.hash h) →
      (add_user_contacts con st clt hs).ret = none ∧
      (del_user_contacts con st clt hs).ret = none ∧
      (get_user_contacts con st clt).ret = none) ∧
    (∀ h hs, st.lookup (get_group_conts_key clt) = some (.hash h) →
      (add_group_contacts con st clt hs).ret = none ∧
      (del_group_contacts con st clt hs).ret = none ∧
      (get_group_contacts con st clt).ret = none) ∧
    (∀ h hs, st.lookup (get_group_key clt) = some (.hash h) →
      (add_group con st clt hs).ret = none ∧ (del_group con st clt hs).ret = none ∧
      (get_group con st clt).ret = none) ∧
    (∀ h devs, st.lookup (get_clt_dev_list_key clt) = some (.hash h) →
      (add_dev2clt con st clt devs).ret = none ∧ (del_dev4clt con st clt devs).ret = none ∧
      (get_devclt_set con st clt).ret = none) ∧
    (∀ s hm, st.lookup (get_clt_dev_hash_key clt dev) = some (.set s) →
      (add_dev2clt_hash con st clt dev hm).ret = none ∧
      (get_device con st clt dev).ret = none) := by
  refine ⟨?_, ?_, ?_, ?_, ?_, ?_, ?_, ?_, ?_, ?_, ?_, ?_, ?_⟩
  · intro e
    simp [exists_user, redisEXISTS]
  · intro e
    simp [exists_group, redisEXISTS]
  · intro e
    simp [exists_devclt, redisEXISTS]
  · intro e
    simp [exists_device, redisEXISTS]
  · intro e
    simp [remove_group, redisDEL]
  · intro e
    simp [remove_devclt_set, redisDEL]
  · intro e
    simp [remove_device, redisDEL]
  · intro s hm h
    refine ⟨?_, ?_, ?_⟩ <;> simp [add_user, get_user, redisHSET, redisHGETALL, h]
  · intro h hs hh
    refine ⟨?_, ?_, ?_⟩ <;>
      simp [add_user_contacts, del_user_contacts, get_user_contacts, redisSADD,
        redisSREM, redisSMEMBERS, hh]
  · intro h hs hh
    refine ⟨?_, ?_, ?_⟩ <;>
      simp [add_group_contacts, del_group_contacts, get_group_contacts, redisSADD,
        redisSREM, redisSMEMBERS, hh]
  · intro h hs hh
    refine ⟨?_, ?_, ?_⟩ <;>
      simp [add_group, del_group, get_group, redisSADD, redisSREM, redisSMEMBERS, hh]
  · intro h devs hh
    refine ⟨?_, ?_, ?_⟩ <;>
      simp [add_dev2clt, del_dev4clt, get_devclt_set, redisSADD, redisSREM,
        redisSMEMBERS, hh]
  · intro s hm h
    refine ⟨?_, ?_⟩ <;> simp [add_dev2clt_hash, get_device, redisHSET, redisHGETALL, h]

/-- C6 witness: a store whose keys all hold the wrong structure type; the boolean
accessors still answer `Ok` and the unwrap accessors abort. -/
theorem C6_error_policy_witness :
    (exists_user ⟨[]⟩
      [("users:5", RVal.set [1]), ("conts_user:5", RVal.hash [("a", "b")]),
        ("group:5", RVal.hash [("a", "b")])] 5).ret ≠ some (.error "boom") ∧
    (add_user ⟨[]⟩
      [("users:5", RVal.set [1]), ("conts_user:5", RVal.hash [("a", "b")]),
        ("group:5", RVal.hash [("a", "b")])] 5 [("f", "v")]).ret = none ∧
    (get_group ⟨[]⟩
      [("users:5", RVal.set [1]), ("conts_user:5", RVal.hash [("a", "b")]),
        ("group:5", RVal.hash [("a", "b")])] 5).ret = none := by
  have hC := C6_error_policy ⟨[]⟩
    [("users:5", RVal.set [1]), ("conts_user:5", RVal.hash [("a", "b")]),
      ("group:5", RVal.hash [("a", "b")])] 5 1
  exact ⟨hC.1 "boom",
    (hC.2.2.2.2.2.2.2.1 [1] [("f", "v")] (by decide)).1,
    (hC.2.2.2.2.2.2.2.2.2.2.1 [("a", "b")] [] (by decide)).2.2⟩

/-- C7: every command an accessor issues is against the key built for its entity and
matches the structure type fixed by that key's prefix — hash commands (HSET, HGETALL)
and the RENAME only on hash-classified keys, set commands (SADD, SREM, SMEMBERS) only
on set-classified keys, with EXISTS and DEL type-agnostic. -/
theorem C7_commands_well_typed (con : MultiplexedConnection) (st : Store)
    (clt dev : Nat) (hm : List (String × String)) (hs : List Nat) :
    (add_user con st clt hm).sent.all cmdOk = true ∧
    (get_user con st clt).sent.all cmdOk = true ∧
    (exists_user con st clt).sent.all cmdOk = true ∧
    (remove_user con st clt).sent.all cmdOk = true ∧
    (add_user_contacts con st clt hs).sent.all cmdOk = true ∧
    (del_user_contacts con st clt hs).sent.all cmdOk = true ∧
    (get_user_contacts con st clt).sent.all cmdOk = true ∧
    (add_group_contacts con st clt hs).sent.all cmdOk = true ∧
    (del_group_contacts con st clt hs).sent.all cmdOk = true ∧
    (get_group_contacts con st clt).sent.all cmdOk = true ∧
    (add_group con st clt hs).sent.all cmdOk = true ∧
    (del_group con st clt hs).sent.all cmdOk = true ∧
    (get_group con st clt).sent.all cmdOk = true ∧
    (exists_group con st clt).sent.all cmdOk = true ∧
    (remove_group con st clt).sent.all cmdOk = true ∧
    (add_dev2clt con st clt hs).sent.all cmdOk = true ∧
    (del_dev4clt con st clt hs).sent.all cmdOk = true ∧
    (get_devclt_set con st clt).sent.all cmdOk = true ∧
    (exists_devclt con st clt).sent.all cmdOk = true ∧
    (remove_devclt_set con st clt).sent.all cmdOk = true ∧
    (add_dev2clt_hash con st clt dev hm).sent.all cmdOk = true ∧
    (get_device con st clt dev).sent.all cmdOk = true ∧
    (exists_device con st clt dev).sent.all cmdOk = true ∧
    (remove_device con st clt dev).sent.all cmdOk = true := by
  refine ⟨?_, ?_, ?_, ?_, ?_, ?_, ?_, ?_, ?_, ?_, ?_, ?_, ?_, ?_, ?_, ?_, ?_, ?_, ?_,
    ?_, ?_, ?_, ?_, ?_⟩
  · cases hr : redisHSET st (get_user_key clt) hm <;>
      simp [add_user, hr, cmdOk, keyKind_user_key]
  · cases hr : redisHGETALL st (get_user_key clt) <;>
      simp [get_user, hr, cmdOk, keyKind_user_key]
  · simp [exists_user, redisEXISTS, cmdOk]
  · cases hr : redisRENAME st (get_user_key clt) (get_del_user_key clt) with
    | ok p =>
      obtain ⟨b, st'⟩ := p
      simp [remove_user, hr, cmdOk, keyKind_user_key, keyKind_del_user_key]
    | error e => simp [remove_user, hr, cmdOk, keyKind_user_key, keyKind_del_user_key]
  · cases hr : redisSADD st (get_user_conts_key clt) hs <;>
      simp [add_user_contacts, hr, cmdOk, keyKind_user_conts_key]
  · cases hr : redisSREM st (get_user_conts_key clt) hs <;>
      simp [del_user_contacts, hr, cmdOk, keyKind_user_conts_key]
  · cases hr : redisSMEMBERS st (get_user_conts_key clt) <;>
      simp [get_user_contacts, hr, cmdOk, keyKind_user_conts_key]
  · cases hr : redisSADD st (get_group_conts_key clt) hs <;>
      simp [add_group_contacts, hr, cmdOk, keyKind_group_conts_key]
  · cases hr : redisSREM st (get_group_conts_key clt) hs <;>
      simp [del_group_contacts, hr, cmdOk, keyKind_group_conts_key]
  · cases hr : redisSMEMBERS st (get_group_conts_key clt) <;>
      simp [get_group_contacts, hr, cmdOk, keyKind_group_conts_key]
  · cases hr : redisSADD st (get_group_key clt) hs <;>
      simp [add_group, hr, cmdOk, keyKind_group_key]
  · cases hr : redisSREM st (get_group_key clt) hs <;>
      simp [del_group, hr, cmdOk, keyKind_group_key]
  · cases hr : redisSMEMBERS st (get_group_key clt) <;>
      simp [get_group, hr, cmdOk, keyKind_group_key]
  · simp [exists_group, redisEXISTS, cmdOk]
  · simp [remove_group, redisDEL, cmdOk]
  · cases hr : redisSADD st (get_clt_dev_list_key clt) hs <;>
      simp [add_dev2clt, hr, cmdOk, keyKind_dev_list_key]
  · cases hr : redisSREM st (get_clt_dev_list_key clt) hs <;>
      simp [del_dev4clt, hr, cmdOk, keyKind_dev_list_key]
  · cases hr : redisSMEMBERS st (get_clt_dev_list_key clt) <;>
      simp [get_devclt_set, hr, cmdOk, keyKind_dev_list_key]
  · simp [exists_devclt, redisEXISTS, cmdOk]
  · simp [remove_devclt_set, redisDEL, cmdOk]
  · cases hr : redisHSET st (get_clt_dev_hash_key clt dev) hm <;>
      simp [add_dev2clt_hash, hr, cmdOk, keyKind_dev_hash_key]
  · cases hr : redisHGETALL st (get_clt_dev_hash_key clt dev) <;>
      simp [get_device, hr, cmdOk, keyKind_dev_hash_key]
  · simp [exists_device, redisEXISTS, cmdOk]
  · simp [remove_device, redisDEL, cmdOk]

/-- C10: every accessor leaves the caller's connection handle unchanged — the source
clones the handle (`let mut con = con.clone();`) and issues its command only on the
clone, so the handle passed in, whether by shared or mutable reference, is returned
to the caller exactly as it was. -/
theorem C10_conn_frame (con : MultiplexedConnection) (st : Store) (clt dev : Nat)
    (hm : List (String × String)) (hs : List Nat) :
    (add_user con st clt hm).conn = con ∧
    (get_user con st clt).conn = con ∧
    (exists_user con st clt).conn = con ∧
    (remove_user con st clt).conn = con ∧
    (add_user_contacts con st clt hs).conn = con ∧
    (del_user_contacts con st clt hs).conn = con ∧
    (get_user_contacts con st clt).conn = con ∧
    (add_group_contacts con st clt hs).conn = con ∧
    (del_group_contacts con st clt hs).conn = con ∧
    (get_group_contacts con st clt).conn = con ∧
    (add_group con st clt hs).conn = con ∧
    (del_group con st clt hs).conn = con ∧
    (get_group con st clt).conn = con ∧
    (exists_group con st clt).conn = con ∧
    (remove_group con st clt).conn = con ∧
    (add_dev2clt con st clt hs).conn = con ∧
    (del_dev4clt con st clt hs).conn = con ∧
    (get_devclt_set con st clt).conn = con ∧
    (exists_devclt con st clt).conn = con ∧
    (remove_devclt_set con st clt).conn = con ∧
    (add_dev2clt_hash con st clt dev hm).conn = con ∧
    (get_device con st clt dev).conn = con ∧
    (exists_device con st clt dev).conn = con ∧
    (remove_device con st clt dev).conn = con := by
  refine ⟨?_, ?_, ?_, ?_, ?_, ?_, ?_, ?_, ?_, ?_, ?_, ?_, ?_, ?_, ?_, ?_, ?_, ?_, ?_,
    ?_, ?_, ?_, ?_, ?_⟩
  · cases hr : redisHSET st (get_user_key clt) hm <;> simp [add_user, hr]
  · cases hr : redisHGETALL st (get_user_key clt) <;> simp [get_user, hr]
  · simp [exists_user, redisEXISTS]
  · cases hr : redisRENAME st (get_user_key clt) (get_del_user_key clt) with
    | ok p =>
      obtain ⟨b, st'⟩ := p
      simp [remove_user, hr]
    | error e => simp [remove_user, hr]
  · cases hr : redisSADD st (get_user_conts_key clt) hs <;> simp [add_user_contacts, hr]
  · cases hr : redisSREM st (get_user_conts_key clt) hs <;> simp [del_user_contacts, hr]
  · cases hr : redisSMEMBERS st (get_user_conts_key clt) <;> simp [get_user_contacts, hr]
  · cases hr : redisSADD st (get_group_conts_key clt) hs <;> simp [add_group_contacts, hr]
  · cases hr : redisSREM st (get_group_conts_key clt) hs <;> simp [del_group_contacts, hr]
  · cases hr : redisSMEMBERS st (get_group_conts_key clt) <;> simp [get_group_contacts, hr]
  · cases hr : redisSADD st (get_group_key clt) hs <;> simp [add_group, hr]
  · cases hr : redisSREM st (get_group_key clt) hs <;> simp [del_group, hr]
  · cases hr : redisSMEMBERS st (get_group_key clt) <;> simp [get_group, hr]
  · simp [exists_group, redisEXISTS]
  · simp [remove_group, redisDEL]
  · cases hr : redisSADD st (get_clt_dev_list_key clt) hs <;> simp [add_dev2clt, hr]
  · cases hr : redisSREM st (get_clt_dev_list_key clt) hs <;> simp [del_dev4clt, hr]
  · cases hr : redisSMEMBERS st (get_clt_dev_list_key clt) <;> simp [get_devclt_set, hr]
  · simp [exists_devclt, redisEXISTS]
  · simp [remove_devclt_set, redisDEL]
  · cases hr : redisHSET st (get_clt_dev_hash_key clt dev) hm <;>
      simp [add_dev2clt_hash, hr]
  · cases hr : redisHGETALL st (get_clt_dev_hash_key clt dev) <;> simp [get_device, hr]
  · simp [exists_device, redisEXISTS]
  · simp [remove_device, redisDEL]

end Btcmdata
